import Mathlib

/-!
Shallow embedding of the measurement-and-capacity-estimation core of the
Arduino battery backup monitor firmware
(src/Arduino_Battery_Backup_Monitor.ino, primary firmware variant).

Floating-point values of the firmware are modelled as rationals, so every
arithmetic step of the source is mirrored exactly; machine `long` values are
modelled as integers with C truncated division and remainder.
-/

namespace BatteryMonitor

/-- Arduino `constrain(amt, low, high)` macro:
`((amt)<(low)?(low):((amt)>(high)?(high):(amt)))`. -/
def constrain (amt low high : ℚ) : ℚ :=
  if amt < low then low else if amt > high then high else amt

/-- `calculateRollingAverage` (lines 496-500): subtracts `currentAverage /
sampleCount` from the running average, then adds `newSample / sampleCount`. -/
def calculateRollingAverage (currentAverage newSample : ℚ) (sampleCount : ℕ) : ℚ :=
  let a := currentAverage - currentAverage / sampleCount
  a + newSample / sampleCount

/-- Iterating the rolling-average filter on the constant input `x`,
starting from the average `a0`, with window size `sampleCount`. -/
def iterAvg (sampleCount : ℕ) (x a0 : ℚ) : ℕ → ℚ
  | 0 => a0
  | k + 1 => calculateRollingAverage (iterAvg sampleCount x a0 k) x sampleCount

/-- One field of the `sprintf` format string `"%02ld"`: the decimal rendering of
the value, zero-padded on the left to a minimum of two characters.  Only the
single-digit nonnegative values 0..9 render shorter than two characters, so
only they receive a padding zero; every other value (including each negative
value, whose sign already contributes a character) renders as plain decimal. -/
def format02 (v : ℤ) : String :=
  if 0 ≤ v ∧ v < 10 then "0" ++ toString v else toString v

/-- `formatTime` (lines 502-512): splits a signed number of seconds into
hours, minutes and seconds with C `long` division (truncation toward zero)
and renders `"%02ld:%02ld:%02ld"`. -/
def formatTime (seconds : ℤ) : String :=
  let hours := seconds.tdiv 3600
  let remainingSeconds := seconds.tmod 3600
  let minutes := remainingSeconds.tdiv 60
  let secs := remainingSeconds.tmod 60
  format02 hours ++ ":" ++ format02 minutes ++ ":" ++ format02 secs

/-- `static_cast<long>` applied to a float value, modelled on rationals:
truncation toward zero. -/
def longOfRat (q : ℚ) : ℤ :=
  q.num.tdiv q.den

/-- `shuntOhms = shuntDropMv / shuntAmp` (line 70). -/
def shuntOhmsOf (shuntDropMv shuntAmp : ℚ) : ℚ :=
  shuntDropMv / shuntAmp

/-- The capacity update of one tick (lines 219-225): convert the elapsed
milliseconds to hours, integrate the current into used ampere-hours, subtract,
and constrain the result to `[0, batteryCapacityAh]`. -/
def capacityUpdate (remainingCapacityAh current measurementInterval batteryCapacityAh : ℚ) : ℚ :=
  let timeHours := measurementInterval / 3600000
  let usedCapacity := current * timeHours
  constrain (remainingCapacityAh - usedCapacity) 0 batteryCapacityAh

/-- Per-tick outputs of the capacity estimator (lines 216-233). -/
structure EstimatorOutput where
  current : ℚ
  usedCapacity : ℚ
  remainingCapacityAh : ℚ
  remainingBatteryPercent : ℚ
  remainingBatteryLifeSeconds : ℤ
  formattedRemainingBatteryLife : String
deriving DecidableEq, Repr

/-- The capacity-estimator computation of one tick (lines 216-233): current
from the averaged shunt voltage, capacity integration and clamping, remaining
percent, and the formatted remaining-life projection. -/
def estimatorTick (remainingCapacityAh batteryCapacityAh shuntOhms shuntVoltageAverage
    measurementInterval : ℚ) : EstimatorOutput :=
  let current := shuntVoltageAverage / shuntOhms
  let timeHours := measurementInterval / 3600000
  let usedCapacity := current * timeHours
  let newRemaining := capacityUpdate remainingCapacityAh current measurementInterval batteryCapacityAh
  let remainingBatteryPercent := (newRemaining * 100) / batteryCapacityAh
  let remainingBatteryLifeHours := if current ≠ 0 then newRemaining / current else 0
  let remainingBatteryLifeSeconds := longOfRat (remainingBatteryLifeHours * 3600)
  { current := current
    usedCapacity := usedCapacity
    remainingCapacityAh := newRemaining
    remainingBatteryPercent := remainingBatteryPercent
    remainingBatteryLifeSeconds := remainingBatteryLifeSeconds
    formattedRemainingBatteryLife := formatTime remainingBatteryLifeSeconds }

/-- The two values of the `batteryState` string. -/
inductive BatteryState
  | charging
  | discharging
deriving DecidableEq, Repr

/-- The mutable state of the alerting classifier: `batteryState`, `smsSent`,
`currentExceeded` (lines 80-83), and the elapsed milliseconds of `smsTimer`. -/
structure AlertState where
  batteryState : BatteryState
  smsSent : Bool
  currentExceeded : Bool
  smsTimerMs : ℕ
deriving DecidableEq, Repr

/-- The 2-hour SMS cooldown, 7200000 milliseconds (line 242). -/
def smsCooldownMs : ℕ := 7200000

/-- Initial classifier state: `batteryState = "Charging"`, both flags false,
timer at zero (lines 80-83). -/
def alertInit : AlertState :=
  { batteryState := .charging, smsSent := false, currentExceeded := false, smsTimerMs := 0 }

/-- One evaluation of the SMS alerting block (lines 236-263).  `delta` is the
wall-clock time in milliseconds that `smsTimer` advanced since its value was
last observed, so `smsTimer.hasPassed(7200000)` reads `s.smsTimerMs + delta ≥
7200000`.  Returns the updated state and whether `sendTextMessage` was
called on this tick. -/
def classifierStep (smsEnabled : Bool) (dischargingThresholdAmps chargingThresholdAmps : ℚ)
    (s : AlertState) (current : ℚ) (delta : ℕ) : AlertState × Bool :=
  let t := s.smsTimerMs + delta
  if smsEnabled then
    if current > dischargingThresholdAmps then
      if !s.smsSent || t ≥ smsCooldownMs then
        ({ batteryState := .discharging, smsSent := true, currentExceeded := true,
           smsTimerMs := 0 }, true)
      else
        ({ batteryState := s.batteryState, smsSent := s.smsSent, currentExceeded := true,
           smsTimerMs := t }, false)
    else if s.currentExceeded && current ≤ chargingThresholdAmps then
      if s.smsSent then
        ({ batteryState := .charging, smsSent := false, currentExceeded := false,
           smsTimerMs := 0 }, true)
      else
        ({ batteryState := s.batteryState, smsSent := s.smsSent, currentExceeded := false,
           smsTimerMs := t }, false)
    else
      ({ batteryState := s.batteryState, smsSent := s.smsSent,
         currentExceeded := s.currentExceeded, smsTimerMs := t }, false)
  else
    ({ batteryState := s.batteryState, smsSent := s.smsSent,
       currentExceeded := s.currentExceeded, smsTimerMs := t }, false)

/-- States of the classifier that actually arise in a run: the `smsSent` flag
records exactly that the battery state is `"Discharging"`, and
`currentExceeded` agrees with `smsSent`. -/
def AlertInv (s : AlertState) : Prop :=
  (s.smsSent = true ↔ s.batteryState = .discharging) ∧ s.currentExceeded = s.smsSent

/-- The configuration record parsed from the fetch payload (lines 364-376). -/
structure BatteryConfig where
  batteryName : String
  batteryCapacityAh : ℚ
  shuntAmp : ℚ
  shuntDropMv : ℚ
  rollingAvgDistance : ℤ
  smsEnabled : Bool
  dischargingThresholdAmps : ℚ
  chargingThresholdAmps : ℚ
  writeRecordingsToDB : Bool
  maxBatteryVoltage : ℚ
deriving DecidableEq, Repr

/-- Outcome of the startup configuration fetch: either the process restarts,
or the fetched configuration is installed together with the value assigned to
`remainingCapacityAh`. -/
inductive ConfigOutcome
  | restart
  | configured (cfg : BatteryConfig) (remainingCapacityAh : ℚ)
deriving DecidableEq, Repr

/-- `getBatteryConfig` (lines 336-386) of the primary firmware, as a function
of the HTTP response code and of the parse result of the payload (`none` for a
deserialization error): on a 200 response with a parsable payload the
configuration is applied and `remainingCapacityAh` is initialized to the
fetched capacity; on any other response code, and on a parse error,
`ESP.restart()` is called. -/
def getBatteryConfig (httpResponseCode : ℤ) (parsed : Option BatteryConfig) : ConfigOutcome :=
  if httpResponseCode = 200 then
    match parsed with
    | none => .restart
    | some cfg => .configured cfg cfg.batteryCapacityAh
  else
    .restart

/-- The configuration values the main loop reads. -/
structure LoopConfig where
  batteryCapacityAh : ℚ
  shuntOhms : ℚ
  rollingAvgDistance : ℕ
  smsEnabled : Bool
  dischargingThresholdAmps : ℚ
  chargingThresholdAmps : ℚ
  maxBatteryVoltage : ℚ
deriving Repr

/-- Environment inputs of one tick of `loop`: the two ADC voltages, the
elapsed milliseconds reported by `myChrono.elapsed()`, and the milliseconds
`smsTimer` advanced since its last observation. -/
structure TickInput where
  shuntVoltage : ℚ
  batteryVoltageMeasured : ℚ
  measurementInterval : ℚ
  smsTimerDelta : ℕ
deriving Repr

/-- The per-tick output bundle handed to the reporting path (serial print,
display, `writeToDB`) on post-warm-up ticks. -/
structure Snapshot where
  shuntVoltage : ℚ
  shuntVoltageAverage : ℚ
  current : ℚ
  remainingCapacityAh : ℚ
  remainingBatteryPercent : ℚ
  formattedRemainingBatteryLife : String
  batteryState : BatteryState
  batteryVoltage : ℚ
deriving DecidableEq, Repr

/-- The mutable state of `loop` across ticks: the `startup_loop` counter
(line 166), the rolling shunt-voltage average, the remaining capacity, and the
classifier state. -/
structure LoopState where
  startupLoop : ℕ
  shuntVoltageAverage : ℚ
  remainingCapacityAh : ℚ
  alert : AlertState
deriving DecidableEq, Repr

/-- One iteration of `loop` (lines 168-293): update the rolling average, then
either return early during warm-up (`startup_loop < rollingAvgDistance`,
lines 207-214, producing no snapshot and leaving estimator and classifier
state untouched), or run the capacity estimator and the alerting classifier
and produce the measurement snapshot. -/
def loopTick (cfg : LoopConfig) (s : LoopState) (inp : TickInput) : LoopState × Option Snapshot :=
  let batteryVoltage := inp.batteryVoltageMeasured * cfg.maxBatteryVoltage / (256 / 1000 : ℚ)
  let avg := calculateRollingAverage s.shuntVoltageAverage inp.shuntVoltage cfg.rollingAvgDistance
  if s.startupLoop < cfg.rollingAvgDistance then
    ({ startupLoop := s.startupLoop + 1, shuntVoltageAverage := avg,
       remainingCapacityAh := s.remainingCapacityAh, alert := s.alert }, none)
  else
    let startupLoopNext :=
      if s.startupLoop = cfg.rollingAvgDistance then s.startupLoop + 1 else s.startupLoop
    let est := estimatorTick s.remainingCapacityAh cfg.batteryCapacityAh cfg.shuntOhms avg
      inp.measurementInterval
    let stepRes := classifierStep cfg.smsEnabled cfg.dischargingThresholdAmps
      cfg.chargingThresholdAmps s.alert est.current inp.smsTimerDelta
    ({ startupLoop := startupLoopNext, shuntVoltageAverage := avg,
       remainingCapacityAh := est.remainingCapacityAh, alert := stepRes.1 },
     some { shuntVoltage := inp.shuntVoltage, shuntVoltageAverage := avg,
            current := est.current, remainingCapacityAh := est.remainingCapacityAh,
            remainingBatteryPercent := est.remainingBatteryPercent,
            formattedRemainingBatteryLife := est.formattedRemainingBatteryLife,
            batteryState := stepRes.1.batteryState, batteryVoltage := batteryVoltage })

/-- Running `loop` over a list of tick inputs, collecting the per-tick
snapshot options in order. -/
def loopRun (cfg : LoopConfig) : LoopState → List TickInput → LoopState × List (Option Snapshot)
  | s, [] => (s, [])
  | s, inp :: rest =>
      let r := loopTick cfg s inp
      let rr := loopRun cfg r.1 rest
      (rr.1, r.2 :: rr.2)

/-! Helper lemmas. -/

theorem constrain_mem (amt low high : ℚ) (h : low ≤ high) :
    low ≤ constrain amt low high ∧ constrain amt low high ≤ high := by
  unfold constrain
  split_ifs with h1 h2
  · exact ⟨le_refl low, h⟩
  · exact ⟨h, le_refl high⟩
  · exact ⟨le_of_not_lt h1, le_of_not_lt h2⟩

theorem capacityUpdate_mem (rem current interval cap : ℚ) (hcap : 0 ≤ cap) :
    0 ≤ capacityUpdate rem current interval cap ∧ capacityUpdate rem current interval cap ≤ cap :=
  constrain_mem _ 0 cap hcap

theorem estimatorTick_formatted (rem cap ohms avg interval : ℚ) :
    (estimatorTick rem cap ohms avg interval).formattedRemainingBatteryLife =
      formatTime (estimatorTick rem cap ohms avg interval).remainingBatteryLifeSeconds := rfl

/-! Claim theorems. -/

/-- C1: for every capacity bound at least 0, every starting remaining capacity
in `[0, capacity]`, and every sequence of per-tick updates with arbitrary
current values and arbitrary elapsed-time deltas (zero and huge jitter values
included), the remaining capacity after each update stays in `[0, capacity]`:
each tick subtracts `current * elapsedHours` and constrains the result. -/
theorem capacity_state_stays_clamped (cap rem0 : ℚ) (updates : List (ℚ × ℚ))
    (hcap : 0 ≤ cap) (h0 : 0 ≤ rem0) (h1 : rem0 ≤ cap) :
    ∀ r ∈ List.scanl (fun rem u => capacityUpdate rem u.1 u.2 cap) rem0 updates,
      0 ≤ r ∧ r ≤ cap := by
  induction updates generalizing rem0 with
  | nil =>
      intro r hr
      simp [List.scanl] at hr
      exact hr ▸ ⟨h0, h1⟩
  | cons u rest ih =>
      intro r hr
      rw [List.scanl_cons] at hr
      simp only [List.singleton_append, List.mem_cons] at hr
      rcases hr with h | h
      · exact h ▸ ⟨h0, h1⟩
      · have hm := capacityUpdate_mem rem0 u.1 u.2 cap hcap
        exact ih (capacityUpdate rem0 u.1 u.2 cap) hm.1 hm.2 r h

theorem capacity_state_stays_clamped_witness :
    0 ≤ capacityUpdate 9 5 3600000 9 ∧ capacityUpdate 9 5 3600000 9 ≤ 9 :=
  capacity_state_stays_clamped 9 9 [(5, 3600000)] (by norm_num) (by norm_num) (by norm_num)
    (capacityUpdate 9 5 3600000 9) (by simp [List.scanl])

/-- C2: the one-tick estimator with capacity 9 Ah, shunt 75 mV / 20 A (so
0.00375 ohms), filtered shunt voltage 0.01875 V, elapsed 3600000 ms and
starting remaining capacity 9 Ah computes current 5 A, used capacity 5 Ah,
remaining capacity clamp(9-5,0,9) = 4 Ah, remaining percent 400/9 ≈ 44.44,
and remaining-time (4/5)*3600 = 2880 s, formatted "00:48:00". -/
theorem end_to_end_scenario_tick :
    shuntOhmsOf (75 / 1000) 20 = 375 / 100000 ∧
    (estimatorTick 9 9 (shuntOhmsOf (75 / 1000) 20) (1875 / 100000) 3600000).current = 5 ∧
    (estimatorTick 9 9 (shuntOhmsOf (75 / 1000) 20) (1875 / 100000) 3600000).usedCapacity = 5 ∧
    (estimatorTick 9 9 (shuntOhmsOf (75 / 1000) 20) (1875 / 100000) 3600000).remainingCapacityAh
      = 4 ∧
    (estimatorTick 9 9 (shuntOhmsOf (75 / 1000) 20)
      (1875 / 100000) 3600000).remainingBatteryPercent = 400 / 9 ∧
    (estimatorTick 9 9 (shuntOhmsOf (75 / 1000) 20)
      (1875 / 100000) 3600000).remainingBatteryLifeSeconds = 2880 ∧
    (estimatorTick 9 9 (shuntOhmsOf (75 / 1000) 20)
      (1875 / 100000) 3600000).formattedRemainingBatteryLife = "00:48:00" := by
  have hohm : shuntOhmsOf (75 / 1000) 20 = 375 / 100000 := by norm_num [shuntOhmsOf]
  have hcur5 : (1875 / 100000 : ℚ) / shuntOhmsOf (75 / 1000) 20 = 5 := by
    rw [hohm]; norm_num
  have hrem5 : capacityUpdate 9 5 3600000 9 = 4 := by
    norm_num [capacityUpdate, constrain]
  have hsec : (estimatorTick 9 9 (shuntOhmsOf (75 / 1000) 20)
      (1875 / 100000) 3600000).remainingBatteryLifeSeconds = 2880 := by
    show longOfRat ((if (1875 / 100000 : ℚ) / shuntOhmsOf (75 / 1000) 20 ≠ 0 then
        capacityUpdate 9 ((1875 / 100000 : ℚ) / shuntOhmsOf (75 / 1000) 20) 3600000 9 /
          ((1875 / 100000 : ℚ) / shuntOhmsOf (75 / 1000) 20) else 0) * 3600) = 2880
    rw [hcur5, hrem5]
    have harg : ((if (5 : ℚ) ≠ 0 then (4 : ℚ) / 5 else 0) * 3600) = 2880 := by norm_num
    rw [harg]
    unfold longOfRat
    norm_num
  refine ⟨hohm, hcur5, ?_, ?_, ?_, hsec, ?_⟩
  · show ((1875 / 100000 : ℚ) / shuntOhmsOf (75 / 1000) 20) * (3600000 / 3600000) = 5
    rw [hcur5]; norm_num
  · show capacityUpdate 9 ((1875 / 100000 : ℚ) / shuntOhmsOf (75 / 1000) 20) 3600000 9 = 4
    rw [hcur5]; exact hrem5
  · show (capacityUpdate 9 ((1875 / 100000 : ℚ) / shuntOhmsOf (75 / 1000) 20) 3600000 9 * 100)
        / 9 = 400 / 9
    rw [hcur5, hrem5]; norm_num
  · rw [estimatorTick_formatted, hsec]
    decide

/-- C5: one rolling-average update returns exactly
`avg - avg / N + sample / N` for every window size `N ≥ 1`, and for `N = 1`
it returns the new sample exactly. -/
theorem rolling_average_update_formula (avg sample : ℚ) (n : ℕ) (_hn : 1 ≤ n) :
    calculateRollingAverage avg sample n = avg - avg / n + sample / n ∧
    calculateRollingAverage avg sample 1 = sample := by
  refine ⟨rfl, ?_⟩
  simp [calculateRollingAverage]

theorem rolling_average_update_formula_witness :
    calculateRollingAverage 2 7 1 = 2 - 2 / ((1 : ℕ) : ℚ) + 7 / ((1 : ℕ) : ℚ) ∧
    calculateRollingAverage 2 7 1 = 7 :=
  rolling_average_update_formula 2 7 1 (le_refl 1)

/-- C8: `formatTime 3661 = "01:01:01"`, and `formatTime (-3661)` renders each
component negative per the signed-field convention, `"-1:-1:-1"`. -/
theorem formatTime_spot_values :
    formatTime 3661 = "01:01:01" ∧ formatTime (-3661) = "-1:-1:-1" := by
  decide

/-- C9: if the startup configuration fetch fails (HTTP response code other
than 200, or unparsable payload) the process restarts, and the measurement
loop is never entered with default fallback values: a configured outcome can
only carry a successfully fetched configuration, with the remaining capacity
initialized from it. -/
theorem config_fetch_failure_restarts :
    (∀ (code : ℤ) (parsed : Option BatteryConfig), code ≠ 200 ∨ parsed = none →
        getBatteryConfig code parsed = ConfigOutcome.restart) ∧
    (∀ (code : ℤ) (parsed : Option BatteryConfig) (cfg : BatteryConfig) (rem : ℚ),
        getBatteryConfig code parsed = ConfigOutcome.configured cfg rem →
        code = 200 ∧ parsed = some cfg ∧ rem = cfg.batteryCapacityAh) := by
  constructor
  · rintro code parsed (h | h)
    · simp [getBatteryConfig, h]
    · subst h
      unfold getBatteryConfig
      split <;> rfl
  · intro code parsed cfg rem h
    unfold getBatteryConfig at h
    split at h
    · cases parsed with
      | none => exact absurd h (by simp)
      | some c =>
          simp only [ConfigOutcome.configured.injEq] at h
          exact ⟨by assumption, by rw [h.1], by rw [← h.2, h.1]⟩
    · exact absurd h (by simp)

theorem config_fetch_failure_restarts_witness :
    getBatteryConfig 500 none = ConfigOutcome.restart :=
  config_fetch_failure_restarts.1 500 none (Or.inl (by decide))

end BatteryMonitor

namespace BatteryMonitor

theorem alertInv_init : AlertInv alertInit :=
  ⟨by simp [alertInit], rfl⟩

theorem alertInv_step (e : Bool) (dth cth : ℚ) (s : AlertState) (c : ℚ) (delta : ℕ)
    (h : AlertInv s) : AlertInv (classifierStep e dth cth s c delta).1 := by
  obtain ⟨bs, ss, ce, tm⟩ := s
  obtain ⟨h1, h2⟩ := h
  simp only at h1 h2
  cases ss <;> cases ce <;> cases bs <;> simp_all [AlertInv, classifierStep] <;>
    split_ifs <;> simp_all

/-- C3: with alerting enabled, from any reachable state classified as Charging
a current above the discharging threshold fires exactly one alert together
with the transition to Discharging, setting the alert-sent flag and
restarting the alert timer; while Discharging with the flag set, a tick whose
current stays above the threshold inside the 2-hour cooldown fires no alert
and changes no state; and while the flag is set an above-threshold tick can
fire only once the cooldown has elapsed. -/
theorem charging_to_discharging_alert_once (dth cth : ℚ) :
    (∀ (s : AlertState) (c : ℚ) (delta : ℕ), AlertInv s →
        s.batteryState = BatteryState.charging → c > dth →
        classifierStep true dth cth s c delta =
          ({ batteryState := .discharging, smsSent := true, currentExceeded := true,
             smsTimerMs := 0 }, true)) ∧
    (∀ (s : AlertState) (c : ℚ) (delta : ℕ), s.batteryState = BatteryState.discharging →
        s.smsSent = true → c > dth → s.smsTimerMs + delta < smsCooldownMs →
        (classifierStep true dth cth s c delta).2 = false ∧
        (classifierStep true dth cth s c delta).1.batteryState = BatteryState.discharging ∧
        (classifierStep true dth cth s c delta).1.smsSent = true ∧
        (classifierStep true dth cth s c delta).1.currentExceeded = true) ∧
    (∀ (s : AlertState) (c : ℚ) (delta : ℕ), s.smsSent = true → c > dth →
        (classifierStep true dth cth s c delta).2 = true →
        smsCooldownMs ≤ s.smsTimerMs + delta) := by
  refine ⟨?_, ?_, ?_⟩
  · intro s c delta hinv hbs hc
    have hss : s.smsSent = false := by
      cases hS : s.smsSent
      · rfl
      · have hd := hinv.1.mp hS
        rw [hbs] at hd
        exact absurd hd (by simp)
    simp [classifierStep, hc, hss]
  · intro s c delta hbs hss hc ht
    simp [classifierStep, hc, hss, hbs, not_le.mpr ht]
  · intro s c delta hss hc hfire
    by_cases hcool : smsCooldownMs ≤ s.smsTimerMs + delta
    · exact hcool
    · exfalso
      simp [classifierStep, hc, hss, hcool] at hfire

theorem charging_to_discharging_alert_once_witness :
    classifierStep true (2 / 10) (2 / 10) alertInit 1 0 =
      ({ batteryState := .discharging, smsSent := true, currentExceeded := true,
         smsTimerMs := 0 }, true) :=
  (charging_to_discharging_alert_once (2 / 10) (2 / 10)).1 alertInit 1 0 alertInv_init rfl
    (by norm_num)

/-- C4 counterexample: with alerting enabled, discharging threshold 0 and
charging threshold 1, in the Discharging state with the alert-sent flag set, a
tick with current 1/2 (which is at or below the charging threshold) neither
transitions to Charging nor fires any alert, because the current still
exceeds the discharging threshold and the discharge branch is evaluated
first; with the cooldown not yet elapsed the tick changes nothing at all. -/
theorem discharging_to_charging_counterexample :
    ((1 : ℚ) / 2 ≤ 1) ∧
    (classifierStep true 0 1 ⟨.discharging, true, true, 0⟩ (1 / 2) 0).1.batteryState =
      BatteryState.discharging ∧
    (classifierStep true 0 1 ⟨.discharging, true, true, 0⟩ (1 / 2) 0).1.smsSent = true ∧
    (classifierStep true 0 1 ⟨.discharging, true, true, 0⟩ (1 / 2) 0).2 = false := by
  refine ⟨by norm_num, ?_, ?_, ?_⟩ <;>
    norm_num [classifierStep, smsCooldownMs]

/-- C4 (amended): with alerting enabled, from any reachable Discharging state
with the alert-sent flag set, the first tick whose current falls to or below
the charging threshold and does not exceed the discharging threshold
transitions to Charging, fires an alert immediately regardless of the
cooldown, clears the alert-sent flag, and restarts the alert timer; and on
any tick from a reachable state on which no alert fires, the battery state
and both flags are unchanged. -/
theorem discharging_to_charging_alert (dth cth : ℚ) :
    (∀ (s : AlertState) (c : ℚ) (delta : ℕ), AlertInv s →
        s.batteryState = BatteryState.discharging → c ≤ cth → c ≤ dth →
        classifierStep true dth cth s c delta =
          ({ batteryState := .charging, smsSent := false, currentExceeded := false,
             smsTimerMs := 0 }, true)) ∧
    (∀ (s : AlertState) (c : ℚ) (delta : ℕ), AlertInv s →
        (classifierStep true dth cth s c delta).2 = false →
        (classifierStep true dth cth s c delta).1.batteryState = s.batteryState ∧
        (classifierStep true dth cth s c delta).1.smsSent = s.smsSent ∧
        (classifierStep true dth cth s c delta).1.currentExceeded = s.currentExceeded) := by
  constructor
  · intro s c delta hinv hbs hccth hcdth
    have hss : s.smsSent = true := hinv.1.mpr hbs
    have hce : s.currentExceeded = true := by rw [hinv.2, hss]
    simp [classifierStep, not_lt.mpr hcdth, hss, hce, hccth]
  · intro s c delta hinv hfire
    obtain ⟨bs, ss, ce, tm⟩ := s
    obtain ⟨h1, h2⟩ := hinv
    simp only at h1 h2
    cases ss <;> cases ce <;> cases bs <;>
      simp_all [classifierStep] <;> split_ifs <;> simp_all

theorem discharging_to_charging_alert_witness :
    classifierStep true (2 / 10) (2 / 10)
      { batteryState := .discharging, smsSent := true, currentExceeded := true,
        smsTimerMs := 0 } (1 / 10) 500 =
      ({ batteryState := .charging, smsSent := false, currentExceeded := false,
         smsTimerMs := 0 }, true) :=
  (discharging_to_charging_alert (2 / 10) (2 / 10)).1
    { batteryState := .discharging, smsSent := true, currentExceeded := true, smsTimerMs := 0 }
    (1 / 10) 500 ⟨by simp, rfl⟩ rfl (by norm_num) (by norm_num)

theorem iterAvg_sub_const (n : ℕ) (x a0 : ℚ) (k : ℕ) :
    iterAvg n x a0 k - x = (1 - 1 / n) ^ k * (a0 - x) := by
  induction k with
  | zero => simp [iterAvg]
  | succ k ih =>
      have hstep : iterAvg n x a0 (k + 1) - x = (iterAvg n x a0 k - x) * (1 - 1 / n) := by
        simp only [iterAvg, calculateRollingAverage]
        ring
      rw [hstep, ih]
      ring

/-- C6: for every window size at least 1, every constant input `x` and every
initial average, the distance between the iterated rolling-average output and
`x` eventually falls below any positive tolerance. -/
theorem rolling_average_converges_to_input (n : ℕ) (hn : 1 ≤ n) (x a0 ε : ℚ) (hε : 0 < ε) :
    ∃ K : ℕ, ∀ k, K ≤ k → |iterAvg n x a0 k - x| < ε := by
  have hn0 : (0 : ℚ) < n := by exact_mod_cast Nat.lt_of_lt_of_le Nat.zero_lt_one hn
  have hinv_pos : 0 < 1 / (n : ℚ) := by positivity
  have hinv_le : 1 / (n : ℚ) ≤ 1 := by
    rw [div_le_one hn0]
    exact_mod_cast hn
  set r : ℚ := 1 - 1 / n with hr
  have hr0 : 0 ≤ r := by rw [hr]; linarith
  have hr1 : r < 1 := by rw [hr]; linarith
  set C : ℚ := |a0 - x| with hC
  have hC0 : 0 ≤ C := abs_nonneg _
  have hC1 : 0 < C + 1 := by linarith
  obtain ⟨K, hK⟩ := exists_pow_lt_of_lt_one (div_pos hε hC1) hr1
  refine ⟨K, fun k hk => ?_⟩
  have habs : |iterAvg n x a0 k - x| = r ^ k * C := by
    rw [iterAvg_sub_const, abs_mul, abs_pow, abs_of_nonneg hr0]
  have hpow : r ^ k ≤ r ^ K := pow_le_pow_of_le_one hr0 (le_of_lt hr1) hk
  have h1 : r ^ k * C ≤ (ε / (C + 1)) * C :=
    mul_le_mul (le_trans hpow (le_of_lt hK)) (le_refl C) hC0 (by positivity)
  have h2 : (ε / (C + 1)) * C < ε := by
    rw [div_mul_eq_mul_div, div_lt_iff₀ hC1]
    nlinarith
  calc |iterAvg n x a0 k - x| = r ^ k * C := habs
    _ ≤ (ε / (C + 1)) * C := h1
    _ < ε := h2

theorem rolling_average_converges_to_input_witness :
    ∃ K : ℕ, ∀ k, K ≤ k → |iterAvg 5 3 0 k - 3| < 1 / 1000 :=
  rolling_average_converges_to_input 5 (by norm_num) 3 0 (1 / 1000) (by norm_num)

theorem loopTick_warm (cfg : LoopConfig) (s : LoopState) (inp : TickInput)
    (h : s.startupLoop < cfg.rollingAvgDistance) :
    loopTick cfg s inp =
      ({ startupLoop := s.startupLoop + 1,
         shuntVoltageAverage := calculateRollingAverage s.shuntVoltageAverage inp.shuntVoltage
           cfg.rollingAvgDistance,
         remainingCapacityAh := s.remainingCapacityAh, alert := s.alert }, none) := by
  simp [loopTick, h]

/-- C7: with window size 5, starting at a fresh startup counter, the first 5
ticks of the main loop produce no measurement snapshot and leave the
remaining capacity and the classifier state untouched (samples only feed the
rolling average), and the 6th tick is the first to produce a snapshot. -/
theorem warmup_ticks_suppress_reporting (cfg : LoopConfig) (h5 : cfg.rollingAvgDistance = 5)
    (s : LoopState) (h0 : s.startupLoop = 0) (i1 i2 i3 i4 i5 i6 : TickInput) :
    (loopRun cfg s [i1, i2, i3, i4, i5]).2 = [none, none, none, none, none] ∧
    (loopRun cfg s [i1, i2, i3, i4, i5]).1.remainingCapacityAh = s.remainingCapacityAh ∧
    (loopRun cfg s [i1, i2, i3, i4, i5]).1.alert = s.alert ∧
    ∃ snap : Snapshot,
      (loopRun cfg s [i1, i2, i3, i4, i5, i6]).2 =
        [none, none, none, none, none, some snap] := by
  obtain ⟨sl, avg0, rem0, al0⟩ := s
  simp only at h0
  subst h0
  refine ⟨?_, ?_, ?_, ?_⟩ <;>
    simp [loopRun, loopTick, h5]

theorem warmup_ticks_suppress_reporting_witness :
    (loopRun ⟨9, 375 / 100000, 5, true, 2 / 10, 2 / 10, 146 / 5⟩ ⟨0, 0, 9, alertInit⟩
        [⟨0, 0, 1000, 1000⟩, ⟨0, 0, 1000, 1000⟩, ⟨0, 0, 1000, 1000⟩, ⟨0, 0, 1000, 1000⟩,
         ⟨0, 0, 1000, 1000⟩]).2 = [none, none, none, none, none] ∧
    (loopRun ⟨9, 375 / 100000, 5, true, 2 / 10, 2 / 10, 146 / 5⟩ ⟨0, 0, 9, alertInit⟩
        [⟨0, 0, 1000, 1000⟩, ⟨0, 0, 1000, 1000⟩, ⟨0, 0, 1000, 1000⟩, ⟨0, 0, 1000, 1000⟩,
         ⟨0, 0, 1000, 1000⟩]).1.remainingCapacityAh =
      (⟨0, 0, 9, alertInit⟩ : LoopState).remainingCapacityAh ∧
    (loopRun ⟨9, 375 / 100000, 5, true, 2 / 10, 2 / 10, 146 / 5⟩ ⟨0, 0, 9, alertInit⟩
        [⟨0, 0, 1000, 1000⟩, ⟨0, 0, 1000, 1000⟩, ⟨0, 0, 1000, 1000⟩, ⟨0, 0, 1000, 1000⟩,
         ⟨0, 0, 1000, 1000⟩]).1.alert = (⟨0, 0, 9, alertInit⟩ : LoopState).alert ∧
    ∃ snap : Snapshot,
      (loopRun ⟨9, 375 / 100000, 5, true, 2 / 10, 2 / 10, 146 / 5⟩ ⟨0, 0, 9, alertInit⟩
          [⟨0, 0, 1000, 1000⟩, ⟨0, 0, 1000, 1000⟩, ⟨0, 0, 1000, 1000⟩, ⟨0, 0, 1000, 1000⟩,
           ⟨0, 0, 1000, 1000⟩, ⟨0, 0, 1000, 1000⟩]).2 =
        [none, none, none, none, none, some snap] :=
  warmup_ticks_suppress_reporting ⟨9, 375 / 100000, 5, true, 2 / 10, 2 / 10, 146 / 5⟩ rfl
    ⟨0, 0, 9, alertInit⟩ rfl ⟨0, 0, 1000, 1000⟩ ⟨0, 0, 1000, 1000⟩ ⟨0, 0, 1000, 1000⟩
    ⟨0, 0, 1000, 1000⟩ ⟨0, 0, 1000, 1000⟩ ⟨0, 0, 1000, 1000⟩

/-- C10: the implicit buffer-safety assumption of `formatTime` fails.  The
9-byte `formattedTime` buffer holds at most 8 characters plus the null
terminator, but reachable inputs produce longer strings: 360000 seconds (a
remaining-life projection of 100 hours, produced for example by a tick with
remaining capacity 9 Ah and current 0.09 A at an elapsed delta of 0 ms)
formats as "100:00:00", 9 characters, and -2314951 seconds formats as
"-643:-2:-31", 11 characters — the very shape of remaining_time the
repository README documents as real logged data. -/
theorem formatTime_exceeds_buffer :
    (formatTime 360000).length = 9 ∧
    formatTime (-2314951) = "-643:-2:-31" ∧
    (formatTime (-2314951)).length = 11 ∧
    (estimatorTick 9 9 (375 / 100000) (27 / 80000) 0).remainingBatteryLifeSeconds = 360000 ∧
    (estimatorTick 9 9 (375 / 100000) (27 / 80000) 0).formattedRemainingBatteryLife
      = "100:00:00" := by
  have hcur : (27 / 80000 : ℚ) / (375 / 100000) = 9 / 100 := by norm_num
  have hremC : capacityUpdate 9 (9 / 100) 0 9 = 9 := by
    norm_num [capacityUpdate, constrain]
  have hsecC : (estimatorTick 9 9 (375 / 100000)
      (27 / 80000) 0).remainingBatteryLifeSeconds = 360000 := by
    show longOfRat ((if (27 / 80000 : ℚ) / (375 / 100000) ≠ 0 then
        capacityUpdate 9 ((27 / 80000 : ℚ) / (375 / 100000)) 0 9 /
          ((27 / 80000 : ℚ) / (375 / 100000)) else 0) * 3600) = 360000
    rw [hcur, hremC]
    have harg : ((if (9 / 100 : ℚ) ≠ 0 then (9 : ℚ) / (9 / 100) else 0) * 3600) = 360000 := by
      norm_num
    rw [harg]
    unfold longOfRat
    norm_num
  refine ⟨by decide, by decide, by decide, hsecC, ?_⟩
  rw [estimatorTick_formatted, hsecC]
  decide

end BatteryMonitor
